import Mathlib

/-!
Shallow embedding of the streaming chat session core of the repository
(the websocket endpoint of main.py, the ChatManager of chat.py, the
Database of database.py).

Modelling conventions:
* Database side effects are explicit state passing over `DBState`; every row
  insert consumes one tick of a logical clock that stands for the Postgres
  `NOW()` timestamps (`created_at` / `updated_at`), which are monotone across
  the successive awaits of one request.
* A JSON-ish value type models the activity-log metadata dicts.
* database.py raises `ValueError("Database not configured")` from
  `get_connection` when `DATABASE_URL` is unset; this is modelled by a
  `dbConfigured : Bool` flag and `Except String` results.
* The OpenAI client of chat.py may be unconfigured (`openaiConfigured`);
  the behaviour of the remote OpenAI stream itself is a parameter
  (`BackendOutcome`): the list of `delta.content` values it produces and
  whether it ends normally or by raising an exception.
* The async generator consumed by the `async for` loop of main.py is
  modelled by its observable behaviour `GenTrace`: the fragments it yields,
  terminated either by normal exhaustion or by raising.  The
  `get_agent_response_stream` of chat.py is modelled separately and always
  terminates normally (its `except Exception` clause converts backend errors
  into a final yielded text).
-/

/-- Python truthiness of an optional string field obtained from
`message_data.get(...)`: `None` and the empty string are falsy
(`if not all([user_id, agent_id, message])` in main.py line 538). -/
def truthy : Option String → Bool
  | none => false
  | some s => !s.isEmpty

/-- The fixed free-agent list of database.py line 196. -/
def free_agents : List String :=
  ["creative-writer", "code-helper", "research-assistant"]

/-- JSON values as stored in the `metadata` JSONB column of `activity_logs`. -/
inductive JsonVal where
  | str (s : String)
  | num (n : Nat)
  | null
deriving DecidableEq, Repr

/-- Render an optional string the way the metadata dicts of main.py do
(`conversation_id` may be `None`). -/
def jsonOfOpt : Option String → JsonVal
  | none => JsonVal.null
  | some s => JsonVal.str s

/-- A row of the `conversations` table. -/
structure Conversation where
  id : String
  user_id : String
  agent_id : String
  title : String
  created_at : Nat
  updated_at : Nat
deriving DecidableEq, Repr

/-- A row of the `messages` table. -/
structure Message where
  conversation_id : String
  role : String
  content : String
  created_at : Nat
deriving DecidableEq, Repr

/-- A row of the `activity_logs` table. -/
structure Activity where
  user_id : String
  action : String
  metadata : List (String × JsonVal)
  created_at : Nat
deriving DecidableEq, Repr

/-- The durable state touched by the session core: the `conversations`,
`messages` and `activity_logs` tables, the `user_agent_access` entitlement
rows (as (user_id, agent_id) pairs), a logical clock for `NOW()`, and a
counter issuing fresh conversation ids (for `gen_random_uuid()`). -/
structure DBState where
  conversations : List Conversation
  messages : List Message
  activity : List Activity
  entitlements : List (String × String)
  clock : Nat
  nextConvId : Nat
deriving DecidableEq, Repr

/-- The empty database. -/
def DBState.empty : DBState :=
  { conversations := [], messages := [], activity := [], entitlements := [],
    clock := 0, nextConvId := 0 }

/-- The `log_activity` of database.py (lines 279-288): insert one row into
`activity_logs`. -/
def log_activity (db : DBState) (uid action : String)
    (md : List (String × JsonVal)) : DBState :=
  { db with
    activity := db.activity ++ [⟨uid, action, md, db.clock⟩],
    clock := db.clock + 1 }

/-- The `create_conversation` of database.py (lines 210-222): insert one row
into `conversations` with the default title and return its fresh id. -/
def create_conversation (db : DBState) (uid aid : String) : String × DBState :=
  let cid := "conv-" ++ toString db.nextConvId
  (cid,
   { db with
     conversations :=
       db.conversations ++
         [⟨cid, uid, aid, "New Conversation", db.clock, db.clock⟩],
     clock := db.clock + 1,
     nextConvId := db.nextConvId + 1 })

/-- The `save_message` of database.py (lines 224-239): insert one row into
`messages` and bump the updated_at of the owning conversation to `NOW()`. -/
def save_message (db : DBState) (cid role content : String) : DBState :=
  { db with
    messages := db.messages ++ [⟨cid, role, content, db.clock⟩],
    conversations := db.conversations.map
      (fun c => if c.id = cid then { c with updated_at := db.clock } else c),
    clock := db.clock + 1 }

deriving instance DecidableEq for Except

/-- Result of the entitlement check: the boolean (or the raised exception
text), together with how many `user_agent_access` rows were fetched, so that
"checked without a store lookup" is expressible. -/
structure AccessResult where
  result : Except String Bool
  entitlementLookups : Nat
deriving DecidableEq, Repr

/-- The `check_agent_access` of database.py (lines 191-208).
`get_connection` is called first and raises
`ValueError("Database not configured")` when `DATABASE_URL` is unset (lines
17-23); otherwise a free agent returns `True` before any query, and a paid
agent is looked up in `user_agent_access`. -/
def check_agent_access (dbConfigured : Bool)
    (entitlements : List (String × String)) (uid aid : String) : AccessResult :=
  if !dbConfigured then
    ⟨Except.error ("Database not configured"), 0⟩
  else if aid ∈ free_agents then
    ⟨Except.ok true, 0⟩
  else
    ⟨Except.ok (decide ((uid, aid) ∈ entitlements)), 1⟩

/-- The observable behaviour of the remote OpenAI streaming completion of
chat.py lines 51-64: the sequence of `chunk.choices[0].delta.content`
values (each possibly `None`), ending either normally or by raising. -/
inductive BackendOutcome where
  | ok (deltas : List (Option String))
  | fail (deltas : List (Option String)) (err : String)
deriving DecidableEq, Repr

/-- The `ChatManager.get_agent_response_stream` of chat.py (lines 36-68), as
the list of texts it yields.  When the OpenAI client is unconfigured it
yields a single explanatory text and returns (lines 39-41).  Otherwise it
yields every delta that is not `None`, in order; if the backend raises
(during `create` or mid-iteration), the `except Exception` clause (lines
66-68) yields a final explanatory error text instead of propagating.  This
generator therefore never raises an `Exception` to its consumer. -/
def get_agent_response_stream (openaiConfigured : Bool)
    (backend : BackendOutcome) : List String :=
  if !openaiConfigured then
    ["AI chat is not available. Please configure OpenAI API key."]
  else
    match backend with
    | BackendOutcome.ok deltas => deltas.filterMap id
    | BackendOutcome.fail deltas err =>
        deltas.filterMap id ++ ["Sorry, I encountered an error: " ++ err]

/-- The observable behaviour of the async generator consumed by the
`async for` loop of main.py line 570: the fragments it yields, terminated
either by normal exhaustion (`done`) or by raising an exception (`raiseErr`)
after the listed fragments. -/
inductive GenTrace where
  | done (fragments : List String)
  | raiseErr (fragments : List String) (err : String)
deriving DecidableEq, Repr

/-- The trace obtained by consuming the stream wrapper of chat.py: it always
terminates normally, with the fragments `get_agent_response_stream` yields. -/
def agent_response_trace (openaiConfigured : Bool)
    (backend : BackendOutcome) : GenTrace :=
  GenTrace.done (get_agent_response_stream openaiConfigured backend)

/-- An outbound record sent over the websocket by main.py:
chunk records (lines 574-578), the completion record (lines 591-594), or an
error record (lines 539, 554, 598, 606). -/
inductive OutRecord where
  | chunk (content : String) (conversation_id : String)
  | complete (conversation_id : String)
  | error (message : String)
deriving DecidableEq, Repr

/-- A record that terminates the protocol cycle of a request: `complete` or
`error`; `chunk` records are not terminal. -/
def OutRecord.isTerminal : OutRecord → Bool
  | OutRecord.chunk _ _ => false
  | OutRecord.complete _ => true
  | OutRecord.error _ => true

/-- Whether a record is a `complete` record. -/
def OutRecord.isComplete : OutRecord → Bool
  | OutRecord.complete _ => true
  | _ => false

/-- Whether a record is an error record. -/
def OutRecord.isError : OutRecord → Bool
  | OutRecord.error _ => true
  | _ => false

/-- The content of a chunk record, if it is one. -/
def chunkContent : OutRecord → Option String
  | OutRecord.chunk c _ => some c
  | _ => none

/-- One inbound chat request as parsed in main.py lines 533-536; every
field comes from `message_data.get(...)` and may be absent. -/
structure Request where
  user_id : Option String
  agent_id : Option String
  message : Option String
  conversation_id : Option String
deriving DecidableEq, Repr

/-- What one iteration of the websocket loop produces: the outbound records
sent for this request, in order, and the database state afterwards. -/
structure ReqResult where
  records : List OutRecord
  db : DBState
deriving DecidableEq, Repr

/-- One iteration of the websocket receive loop of main.py (lines
530-600), handling a single inbound request, with the generator trace for
`chat_manager.get_agent_response_stream(agent, message)` as a parameter:

1. validation (line 538): any falsy field sends the missing-fields error;
2. `log_activity(user_id, "message_sent", ...)` (line 545) is the first
   database call; when the database is unconfigured it raises, and the outer
   `except Exception` handler (lines 604-608) sends a connection-error
   record;
3. `check_agent_access` (line 552); denial sends an access-denied error;
4. conversation resolution (lines 560-561): a falsy `conversation_id` makes
   a new conversation;
5. `save_message(conversation_id, "user", message)` (line 563);
6. the generation try block (lines 568-600): each yielded fragment is
   accumulated into `full_response` and relayed as a chunk record; on normal
   end of stream the accumulated text is saved as the assistant message, a
   `message_received` activity is logged and a `complete` record is sent; if
   the generator raises, the `except` clause sends a single
   failed-to-get-response error record and nothing of this step is saved. -/
def websocket_handle_request (dbConfigured : Bool) (db : DBState)
    (req : Request) (trace : GenTrace) : ReqResult :=
  if !(truthy req.user_id && truthy req.agent_id && truthy req.message) then
    ⟨[OutRecord.error ("Missing required fields: user_id, agent_id, message")],
     db⟩
  else
    let uid := req.user_id.getD ("")
    let aid := req.agent_id.getD ("")
    let msg := req.message.getD ("")
    if !dbConfigured then
      ⟨[OutRecord.error ("Connection error: Database not configured")], db⟩
    else
      let db1 := log_activity db uid ("message_sent")
        [("agent_id", JsonVal.str aid),
         ("conversation_id", jsonOfOpt req.conversation_id),
         ("message_length", JsonVal.num msg.length)]
      match (check_agent_access dbConfigured db1.entitlements uid aid).result with
      | Except.error e => ⟨[OutRecord.error ("Connection error: " ++ e)], db1⟩
      | Except.ok false =>
          ⟨[OutRecord.error ("Access denied to this agent. Payment required.")],
           db1⟩
      | Except.ok true =>
          let cr : String × DBState :=
            if truthy req.conversation_id then (req.conversation_id.getD (""), db1)
            else create_conversation db1 uid aid
          let conv := cr.1
          let db2 := cr.2
          let db3 := save_message db2 conv ("user") msg
          match trace with
          | GenTrace.done frags =>
              let full := String.join frags
              let db4 := save_message db3 conv ("assistant") full
              let db5 := log_activity db4 uid ("message_received")
                [("agent_id", JsonVal.str aid),
                 ("conversation_id", JsonVal.str conv),
                 ("response_length", JsonVal.num full.length)]
              ⟨(frags.map (fun c => OutRecord.chunk c conv)) ++
                 [OutRecord.complete conv],
               db5⟩
          | GenTrace.raiseErr frags err =>
              ⟨(frags.map (fun c => OutRecord.chunk c conv)) ++
                [OutRecord.error ("Failed to get agent response: " ++ err)],
               db3⟩

/-- A field holding a non-empty string is truthy. -/
theorem truthy_some {s : String} (h : s ≠ "") : truthy (some s) = true := by
  have he : s.isEmpty = false := by
    rw [Bool.eq_false_iff]
    intro hh
    exact h ((String.isEmpty_iff s).mp hh)
  simp [truthy, he]

/-- Chunk records are never terminal records. -/
theorem chunks_all_not_terminal (conv : String) (frags : List String) :
    (frags.map (fun c => OutRecord.chunk c conv)).all
      (fun x => !x.isTerminal) = true := by
  induction frags with
  | nil => rfl
  | cons c cs ih => simp [OutRecord.isTerminal, ih]

/-- Chunk records are never `complete` records. -/
theorem chunks_all_not_complete (conv : String) (frags : List String) :
    (frags.map (fun c => OutRecord.chunk c conv)).all
      (fun x => !x.isComplete) = true := by
  induction frags with
  | nil => rfl
  | cons c cs ih => simp [OutRecord.isComplete, ih]

/-- Extracting the chunk contents of a list of chunk records gives back the
underlying fragments. -/
theorem filterMap_chunkContent_chunks (conv : String) (frags : List String) :
    (frags.map (fun c => OutRecord.chunk c conv)).filterMap chunkContent =
      frags := by
  induction frags with
  | nil => rfl
  | cons c cs ih => simp [chunkContent, ih]

/-- Shape of a request that passes validation and authorization and whose
generator trace ends normally: the records are the fragments as chunk
records followed by one `complete` record, and exactly the user message and
the assembled assistant message are appended, in this order, at consecutive
clock ticks. -/
theorem handle_done_shape (db : DBState) (req : Request) (uid aid msg : String)
    (frags : List String)
    (hu : req.user_id = some uid) (hu0 : uid ≠ "")
    (ha : req.agent_id = some aid) (ha0 : aid ≠ "")
    (hm : req.message = some msg) (hm0 : msg ≠ "")
    (hacc : (check_agent_access true db.entitlements uid aid).result =
      Except.ok true) :
    ∃ conv t,
      (websocket_handle_request true db req (GenTrace.done frags)).records =
          frags.map (fun c => OutRecord.chunk c conv) ++
            [OutRecord.complete conv] ∧
      (websocket_handle_request true db req (GenTrace.done frags)).db.messages =
          db.messages ++
            [Message.mk conv ("user") msg t,
             Message.mk conv ("assistant") (String.join frags) (t + 1)] := by
  by_cases hc : truthy req.conversation_id
  · refine ⟨req.conversation_id.getD (""), db.clock + 1, ?_, ?_⟩ <;>
      simp [websocket_handle_request, hu, ha, hm, truthy_some hu0,
        truthy_some ha0, truthy_some hm0, hc, log_activity, save_message,
        create_conversation, hacc]
  · refine ⟨"conv-" ++ toString db.nextConvId, db.clock + 2, ?_, ?_⟩ <;>
      simp [websocket_handle_request, hu, ha, hm, truthy_some hu0,
        truthy_some ha0, truthy_some hm0, hc, log_activity, save_message,
        create_conversation, hacc]

/-- Appending one terminal record to non-terminal records yields a record
list whose last element is its unique terminal record. -/
theorem one_terminal_concat (xs : List OutRecord) (r : OutRecord)
    (hx : xs.all (fun x => !x.isTerminal) = true) (hr : r.isTerminal = true) :
    ∃ t, (xs ++ [r]).getLast? = some t ∧ t.isTerminal = true ∧
      ((xs ++ [r]).dropLast.all (fun x => !x.isTerminal)) = true :=
  ⟨r, List.getLast?_concat xs, hr, by simpa using hx⟩

/-- Claim C1: when the generator trace raises mid-stream after emitting some
fragments, the session core relays exactly those fragments as chunk records
followed by a single structured error record, sends no `complete` record,
and discards the accumulated buffer: the message store gains the user
message and no assistant message for this request. -/
theorem C1_generation_failure_discards (db : DBState) (req : Request)
    (uid aid msg : String) (frags : List String) (err : String)
    (hu : req.user_id = some uid) (hu0 : uid ≠ "")
    (ha : req.agent_id = some aid) (ha0 : aid ≠ "")
    (hm : req.message = some msg) (hm0 : msg ≠ "")
    (hacc : (check_agent_access true db.entitlements uid aid).result =
      Except.ok true) :
    ∃ conv t,
      (websocket_handle_request true db req
          (GenTrace.raiseErr frags err)).records =
          frags.map (fun c => OutRecord.chunk c conv) ++
            [OutRecord.error ("Failed to get agent response: " ++ err)] ∧
      ((websocket_handle_request true db req
          (GenTrace.raiseErr frags err)).records.all
          (fun r => !r.isComplete)) = true ∧
      (websocket_handle_request true db req
          (GenTrace.raiseErr frags err)).db.messages =
          db.messages ++ [Message.mk conv ("user") msg t] ∧
      ((websocket_handle_request true db req
            (GenTrace.raiseErr frags err)).db.messages.filter
          (fun m => m.role == "assistant")) =
        (db.messages.filter (fun m => m.role == "assistant")) := by
  by_cases hc : truthy req.conversation_id
  · refine ⟨req.conversation_id.getD (""), db.clock + 1, ?_, ?_, ?_, ?_⟩ <;>
      simp [websocket_handle_request, hu, ha, hm, truthy_some hu0,
        truthy_some ha0, truthy_some hm0, hc, log_activity, save_message,
        create_conversation, hacc, chunks_all_not_complete,
        OutRecord.isComplete, List.filter_append]
  · refine ⟨"conv-" ++ toString db.nextConvId, db.clock + 2, ?_, ?_, ?_, ?_⟩ <;>
      simp [websocket_handle_request, hu, ha, hm, truthy_some hu0,
        truthy_some ha0, truthy_some hm0, hc, log_activity, save_message,
        create_conversation, hacc, chunks_all_not_complete,
        OutRecord.isComplete, List.filter_append]

/-- Claim C1, witness: a concrete run in which the generator raises after
two fragments. -/
theorem C1_generation_failure_discards_witness :
    (Request.mk (some ("u1")) (some ("creative-writer")) (some ("hi"))
        none).user_id = some ("u1") ∧
      ∃ conv t,
        (websocket_handle_request true DBState.empty
            (Request.mk (some ("u1")) (some ("creative-writer")) (some ("hi"))
              none)
            (GenTrace.raiseErr ["a", "b"] ("boom"))).records =
            ["a", "b"].map (fun c => OutRecord.chunk c conv) ++
              [OutRecord.error ("Failed to get agent response: " ++ "boom")] ∧
        ((websocket_handle_request true DBState.empty
            (Request.mk (some ("u1")) (some ("creative-writer")) (some ("hi"))
              none)
            (GenTrace.raiseErr ["a", "b"] ("boom"))).records.all
          (fun r => !r.isComplete)) = true ∧
        (websocket_handle_request true DBState.empty
            (Request.mk (some ("u1")) (some ("creative-writer")) (some ("hi"))
              none)
            (GenTrace.raiseErr ["a", "b"] ("boom"))).db.messages =
            DBState.empty.messages ++ [Message.mk conv ("user") ("hi") t] ∧
        ((websocket_handle_request true DBState.empty
            (Request.mk (some ("u1")) (some ("creative-writer")) (some ("hi"))
              none)
            (GenTrace.raiseErr ["a", "b"] ("boom"))).db.messages.filter
          (fun m => m.role == "assistant")) =
          (DBState.empty.messages.filter (fun m => m.role == "assistant")) :=
  ⟨rfl,
   C1_generation_failure_discards DBState.empty
     (Request.mk (some ("u1")) (some ("creative-writer")) (some ("hi")) none)
     ("u1") ("creative-writer") ("hi") ["a", "b"] ("boom")
     rfl (by decide) rfl (by decide) rfl (by decide) (by decide)⟩

/-- Claim C2: for a successful streamed request, the chunk records are the
emitted fragments in emission order, the persisted assistant message is the
concatenation of the fragments, and concatenating the relayed chunk
contents in order equals that persisted text. -/
theorem C2_relay_order_and_concat (db : DBState) (req : Request)
    (uid aid msg : String) (frags : List String)
    (hu : req.user_id = some uid) (hu0 : uid ≠ "")
    (ha : req.agent_id = some aid) (ha0 : aid ≠ "")
    (hm : req.message = some msg) (hm0 : msg ≠ "")
    (hacc : (check_agent_access true db.entitlements uid aid).result =
      Except.ok true) :
    ∃ conv t,
      (websocket_handle_request true db req (GenTrace.done frags)).records =
          frags.map (fun c => OutRecord.chunk c conv) ++
            [OutRecord.complete conv] ∧
      (websocket_handle_request true db req (GenTrace.done frags)).db.messages =
          db.messages ++
            [Message.mk conv ("user") msg t,
             Message.mk conv ("assistant") (String.join frags) (t + 1)] ∧
      String.join
          ((websocket_handle_request true db req
              (GenTrace.done frags)).records.filterMap chunkContent) =
        String.join frags := by
  obtain ⟨conv, t, hrec, hmsg⟩ :=
    handle_done_shape db req uid aid msg frags hu hu0 ha ha0 hm hm0 hacc
  refine ⟨conv, t, hrec, hmsg, ?_⟩
  rw [hrec, List.filterMap_append, filterMap_chunkContent_chunks]
  simp [chunkContent]

/-- Claim C2, witness: a concrete successful run with two fragments. -/
theorem C2_relay_order_and_concat_witness :
    (Request.mk (some ("u1")) (some ("creative-writer")) (some ("hi"))
        none).user_id = some ("u1") ∧
      (check_agent_access true DBState.empty.entitlements ("u1")
          ("creative-writer")).result = Except.ok true ∧
      ∃ conv t,
        (websocket_handle_request true DBState.empty
            (Request.mk (some ("u1")) (some ("creative-writer")) (some ("hi"))
              none)
            (GenTrace.done ["he", "llo"])).records =
            ["he", "llo"].map (fun c => OutRecord.chunk c conv) ++
              [OutRecord.complete conv] ∧
        (websocket_handle_request true DBState.empty
            (Request.mk (some ("u1")) (some ("creative-writer")) (some ("hi"))
              none)
            (GenTrace.done ["he", "llo"])).db.messages =
            DBState.empty.messages ++
              [Message.mk conv ("user") ("hi") t,
               Message.mk conv ("assistant") (String.join ["he", "llo"])
                 (t + 1)] ∧
        String.join
            ((websocket_handle_request true DBState.empty
                (Request.mk (some ("u1")) (some ("creative-writer"))
                  (some ("hi")) none)
                (GenTrace.done ["he", "llo"])).records.filterMap
              chunkContent) =
          String.join ["he", "llo"] :=
  ⟨rfl, by decide,
   C2_relay_order_and_concat DBState.empty
     (Request.mk (some ("u1")) (some ("creative-writer")) (some ("hi")) none)
     ("u1") ("creative-writer") ("hi") ["he", "llo"]
     rfl (by decide) rfl (by decide) rfl (by decide) (by decide)⟩

/-- Claim C3: for every processed request, over every configuration, database
state and generator trace, the outbound records end in exactly one terminal
record (a `complete` or an error record), and every record before it is a
chunk record: never both terminals, never neither, and the terminal record
is always last. -/
theorem C3_exactly_one_terminal_record (cfg : Bool) (db : DBState)
    (req : Request) (trace : GenTrace) :
    ∃ r, (websocket_handle_request cfg db req trace).records.getLast? =
        some r ∧
      r.isTerminal = true ∧
      ((websocket_handle_request cfg db req trace).records.dropLast.all
        (fun x => !x.isTerminal)) = true := by
  unfold websocket_handle_request
  dsimp only
  split
  · exact one_terminal_concat [] _ rfl rfl
  · split
    · exact one_terminal_concat [] _ rfl rfl
    · split
      · exact one_terminal_concat [] _ rfl rfl
      · exact one_terminal_concat [] _ rfl rfl
      · split
        · exact one_terminal_concat _ _ (chunks_all_not_terminal _ _) rfl
        · exact one_terminal_concat _ _ (chunks_all_not_terminal _ _) rfl

/-- Claim C4, counterexample: with the OpenAI client unconfigured, a valid
request to a free agent receives a chunk record carrying the explanatory
text followed by a `complete` record, and no error record at all; moreover
the explanatory text is persisted as an assistant message.  This refutes the
claim that the failure is surfaced as a channel error record. -/
theorem C4_unavailable_counterexample :
    (websocket_handle_request true DBState.empty
        (Request.mk (some ("u1")) (some ("creative-writer")) (some ("hi"))
          none)
        (agent_response_trace false (BackendOutcome.ok []))).records =
      [OutRecord.chunk
         ("AI chat is not available. Please configure OpenAI API key.")
         ("conv-0"),
       OutRecord.complete ("conv-0")] ∧
    ((websocket_handle_request true DBState.empty
        (Request.mk (some ("u1")) (some ("creative-writer")) (some ("hi"))
          none)
        (agent_response_trace false (BackendOutcome.ok []))).records.all
      (fun r => !r.isError)) = true ∧
    (websocket_handle_request true DBState.empty
        (Request.mk (some ("u1")) (some ("creative-writer")) (some ("hi"))
          none)
        (agent_response_trace false (BackendOutcome.ok []))).db.messages =
      [Message.mk ("conv-0") ("user") ("hi") 2,
       Message.mk ("conv-0") ("assistant")
         ("AI chat is not available. Please configure OpenAI API key.") 3] :=
  ⟨rfl, rfl, rfl⟩

/-- Claim C4, amended: when the response generator is unreachable or
unconfigured, the stream wrapper yields a single explanatory text, so the
client receives one chunk record containing that explanatory message
followed by a `complete` record (no error record); the explanatory text is
persisted as the assistant message, and the user message (appended before
generation) remains persisted. -/
theorem C4_unavailable_amended (db : DBState) (req : Request)
    (uid aid msg : String) (cfg : Bool) (backend : BackendOutcome)
    (hu : req.user_id = some uid) (hu0 : uid ≠ "")
    (ha : req.agent_id = some aid) (ha0 : aid ≠ "")
    (hm : req.message = some msg) (hm0 : msg ≠ "")
    (hacc : (check_agent_access true db.entitlements uid aid).result =
      Except.ok true)
    (hfail : cfg = false ∨ ∃ e, backend = BackendOutcome.fail [] e) :
    ∃ conv explain t,
      get_agent_response_stream cfg backend = [explain] ∧
      (websocket_handle_request true db req
          (agent_response_trace cfg backend)).records =
        [OutRecord.chunk explain conv, OutRecord.complete conv] ∧
      (websocket_handle_request true db req
          (agent_response_trace cfg backend)).db.messages =
        db.messages ++
          [Message.mk conv ("user") msg t,
           Message.mk conv ("assistant") explain (t + 1)] := by
  have hstream : ∃ explain, get_agent_response_stream cfg backend = [explain] := by
    rcases hfail with h | ⟨e, h⟩
    · subst h
      exact ⟨"AI chat is not available. Please configure OpenAI API key.",
        by simp [get_agent_response_stream]⟩
    · subst h
      cases cfg
      · exact ⟨"AI chat is not available. Please configure OpenAI API key.",
          by simp [get_agent_response_stream]⟩
      · exact ⟨"Sorry, I encountered an error: " ++ e,
          by simp [get_agent_response_stream]⟩
  obtain ⟨explain, hE⟩ := hstream
  obtain ⟨conv, t, hrec, hmsg⟩ :=
    handle_done_shape db req uid aid msg [explain] hu hu0 ha ha0 hm hm0 hacc
  have htr : agent_response_trace cfg backend = GenTrace.done [explain] := by
    rw [agent_response_trace, hE]
  have hj : String.join [explain] = explain := by simp [String.join]
  rw [htr]
  refine ⟨conv, explain, t, hE, ?_, ?_⟩
  · rw [hrec]
    rfl
  · rw [hmsg, hj]

/-- Claim C4, witness for the amended statement: the concrete unconfigured
run. -/
theorem C4_unavailable_amended_witness :
    ((false : Bool) = false ∨
        ∃ e, BackendOutcome.ok ([] : List (Option String)) =
          BackendOutcome.fail [] e) ∧
      ∃ conv explain t,
        get_agent_response_stream false (BackendOutcome.ok []) = [explain] ∧
        (websocket_handle_request true DBState.empty
            (Request.mk (some ("u1")) (some ("creative-writer")) (some ("hi"))
              none)
            (agent_response_trace false (BackendOutcome.ok []))).records =
          [OutRecord.chunk explain conv, OutRecord.complete conv] ∧
        (websocket_handle_request true DBState.empty
            (Request.mk (some ("u1")) (some ("creative-writer")) (some ("hi"))
              none)
            (agent_response_trace false (BackendOutcome.ok []))).db.messages =
          DBState.empty.messages ++
            [Message.mk conv ("user") ("hi") t,
             Message.mk conv ("assistant") explain (t + 1)] :=
  ⟨Or.inl rfl,
   C4_unavailable_amended DBState.empty
     (Request.mk (some ("u1")) (some ("creative-writer")) (some ("hi")) none)
     ("u1") ("creative-writer") ("hi") false (BackendOutcome.ok [])
     rfl (by decide) rfl (by decide) rfl (by decide) (by decide) (Or.inl rfl)⟩

/-- Claim C5, counterexample: a concrete request to a paid agent with no
entitlement is denied with an access-denied error record, yet its activity
log contains exactly a message_sent event and no denied-access event,
because the send is logged before the entitlement check (main.py lines
544-557).  This refutes the claim that no message_sent event is recorded for
the denied request. -/
theorem C5_denied_logs_message_sent_counterexample :
    (websocket_handle_request true DBState.empty
        (Request.mk (some ("u1")) (some ("data-scientist")) (some ("hi"))
          none)
        (GenTrace.done ["x"])).records =
      [OutRecord.error ("Access denied to this agent. Payment required.")] ∧
    (websocket_handle_request true DBState.empty
        (Request.mk (some ("u1")) (some ("data-scientist")) (some ("hi"))
          none)
        (GenTrace.done ["x"])).db.activity =
      [Activity.mk ("u1") ("message_sent")
        [("agent_id", JsonVal.str ("data-scientist")),
         ("conversation_id", JsonVal.null),
         ("message_length", JsonVal.num 2)] 0] :=
  ⟨rfl, rfl⟩

/-- Claim C5, amended: for every request denied by the entitlement check,
exactly one activity event is recorded for that request, and it is a
message_sent event (logged before the check); no denied-access activity
event is recorded. -/
theorem C5_denied_activity_amended (db : DBState) (req : Request)
    (uid aid msg : String) (trace : GenTrace)
    (hu : req.user_id = some uid) (hu0 : uid ≠ "")
    (ha : req.agent_id = some aid) (ha0 : aid ≠ "")
    (hm : req.message = some msg) (hm0 : msg ≠ "")
    (hpaid : aid ∉ free_agents) (hent : (uid, aid) ∉ db.entitlements) :
    (websocket_handle_request true db req trace).db.activity =
      db.activity ++
        [Activity.mk uid ("message_sent")
          [("agent_id", JsonVal.str aid),
           ("conversation_id", jsonOfOpt req.conversation_id),
           ("message_length", JsonVal.num msg.length)] db.clock] := by
  simp [websocket_handle_request, hu, ha, hm, truthy_some hu0, truthy_some ha0,
    truthy_some hm0, check_agent_access, hpaid, hent, log_activity]

/-- Claim C5, witness for the amended statement: the concrete denied run. -/
theorem C5_denied_activity_amended_witness :
    "data-scientist" ∉ free_agents ∧
      (websocket_handle_request true DBState.empty
          (Request.mk (some ("u1")) (some ("data-scientist")) (some ("hi"))
            none)
          (GenTrace.done ["x"])).db.activity =
        DBState.empty.activity ++
          [Activity.mk ("u1") ("message_sent")
            [("agent_id", JsonVal.str ("data-scientist")),
             ("conversation_id", jsonOfOpt none),
             ("message_length", JsonVal.num ("hi").length)]
            DBState.empty.clock] :=
  ⟨by decide,
   C5_denied_activity_amended DBState.empty
     (Request.mk (some ("u1")) (some ("data-scientist")) (some ("hi")) none)
     ("u1") ("data-scientist") ("hi") (GenTrace.done ["x"])
     rfl (by decide) rfl (by decide) rfl (by decide) (by decide) (by decide)⟩

/-- Claim C6: a valid request to a paid agent from a user with no
entitlement receives a single access-denied error record and leaves the
conversation store untouched: no conversation row and no message row is
added. -/
theorem C6_paid_denied (db : DBState) (req : Request) (uid aid msg : String)
    (trace : GenTrace)
    (hu : req.user_id = some uid) (hu0 : uid ≠ "")
    (ha : req.agent_id = some aid) (ha0 : aid ≠ "")
    (hm : req.message = some msg) (hm0 : msg ≠ "")
    (hpaid : aid ∉ free_agents) (hent : (uid, aid) ∉ db.entitlements) :
    (websocket_handle_request true db req trace).records =
        [OutRecord.error ("Access denied to this agent. Payment required.")] ∧
      (websocket_handle_request true db req trace).db.conversations =
        db.conversations ∧
      (websocket_handle_request true db req trace).db.messages = db.messages := by
  simp [websocket_handle_request, hu, ha, hm, truthy_some hu0, truthy_some ha0,
    truthy_some hm0, check_agent_access, hpaid, hent, log_activity]

/-- Claim C6, witness: the concrete denied run. -/
theorem C6_paid_denied_witness :
    "data-scientist" ∉ free_agents ∧
      (websocket_handle_request true DBState.empty
          (Request.mk (some ("u1")) (some ("data-scientist")) (some ("hi"))
            none)
          (GenTrace.done ["x"])).records =
        [OutRecord.error ("Access denied to this agent. Payment required.")] ∧
      (websocket_handle_request true DBState.empty
          (Request.mk (some ("u1")) (some ("data-scientist")) (some ("hi"))
            none)
          (GenTrace.done ["x"])).db.conversations =
        DBState.empty.conversations ∧
      (websocket_handle_request true DBState.empty
          (Request.mk (some ("u1")) (some ("data-scientist")) (some ("hi"))
            none)
          (GenTrace.done ["x"])).db.messages = DBState.empty.messages :=
  ⟨by decide,
   C6_paid_denied DBState.empty
     (Request.mk (some ("u1")) (some ("data-scientist")) (some ("hi")) none)
     ("u1") ("data-scientist") ("hi") (GenTrace.done ["x"])
     rfl (by decide) rfl (by decide) rfl (by decide) (by decide) (by decide)⟩

/-- Claim C7: a request missing any of user_id, agent_id or message (absent
or empty) receives the structured missing-fields error record and the
database state is returned unchanged: no conversation, no message and no
activity event. -/
theorem C7_missing_field_untouched (cfg : Bool) (db : DBState) (req : Request)
    (trace : GenTrace)
    (hmiss : truthy req.user_id = false ∨ truthy req.agent_id = false ∨
      truthy req.message = false) :
    websocket_handle_request cfg db req trace =
      ⟨[OutRecord.error
          ("Missing required fields: user_id, agent_id, message")], db⟩ := by
  have h : (truthy req.user_id && truthy req.agent_id &&
      truthy req.message) = false := by
    rcases hmiss with h | h | h <;> simp [h]
  simp [websocket_handle_request, h]

/-- Claim C7, witness: a concrete request with no agent_id. -/
theorem C7_missing_field_untouched_witness :
    truthy (Request.mk (some ("u1")) none (some ("hi")) none).agent_id =
        false ∧
      websocket_handle_request true DBState.empty
          (Request.mk (some ("u1")) none (some ("hi")) none)
          (GenTrace.done ["x"]) =
        ⟨[OutRecord.error
            ("Missing required fields: user_id, agent_id, message")],
         DBState.empty⟩ :=
  ⟨rfl,
   C7_missing_field_untouched true DBState.empty
     (Request.mk (some ("u1")) none (some ("hi")) none) (GenTrace.done ["x"])
     (Or.inr (Or.inl rfl))⟩

/-- Claim C8: on a successful request the user message and the assistant
message are appended in this order and the created_at of the persisted user
message is less than or equal to the created_at of the persisted assistant
message. -/
theorem C8_user_message_precedes_assistant (db : DBState) (req : Request)
    (uid aid msg : String) (frags : List String)
    (hu : req.user_id = some uid) (hu0 : uid ≠ "")
    (ha : req.agent_id = some aid) (ha0 : aid ≠ "")
    (hm : req.message = some msg) (hm0 : msg ≠ "")
    (hacc : (check_agent_access true db.entitlements uid aid).result =
      Except.ok true) :
    ∃ conv tu ta,
      (websocket_handle_request true db req (GenTrace.done frags)).db.messages =
          db.messages ++
            [Message.mk conv ("user") msg tu,
             Message.mk conv ("assistant") (String.join frags) ta] ∧
      tu ≤ ta := by
  obtain ⟨conv, t, _, hmsg⟩ :=
    handle_done_shape db req uid aid msg frags hu hu0 ha ha0 hm hm0 hacc
  exact ⟨conv, t, t + 1, hmsg, Nat.le_succ t⟩

/-- Claim C8, witness: the concrete successful run. -/
theorem C8_user_message_precedes_assistant_witness :
    (Request.mk (some ("u1")) (some ("creative-writer")) (some ("hi"))
        none).user_id = some ("u1") ∧
      ∃ conv tu ta,
        (websocket_handle_request true DBState.empty
            (Request.mk (some ("u1")) (some ("creative-writer")) (some ("hi"))
              none)
            (GenTrace.done ["he", "llo"])).db.messages =
            DBState.empty.messages ++
              [Message.mk conv ("user") ("hi") tu,
               Message.mk conv ("assistant") (String.join ["he", "llo"]) ta] ∧
        tu ≤ ta :=
  ⟨rfl,
   C8_user_message_precedes_assistant DBState.empty
     (Request.mk (some ("u1")) (some ("creative-writer")) (some ("hi")) none)
     ("u1") ("creative-writer") ("hi") ["he", "llo"]
     rfl (by decide) rfl (by decide) rfl (by decide) (by decide)⟩

/-- Claim C9: with a configured database, the entitlement check returns true
for every user and every agent of the fixed free-agent set, whatever the
entitlement rows are, and performs zero entitlement-row lookups. -/
theorem C9_free_agent_always_entitled (ents : List (String × String))
    (uid aid : String) (hfree : aid ∈ free_agents) :
    check_agent_access true ents uid aid = ⟨Except.ok true, 0⟩ := by
  simp [check_agent_access, hfree]

/-- Claim C9, witness: a free agent over an unrelated entitlement store. -/
theorem C9_free_agent_always_entitled_witness :
    "creative-writer" ∈ free_agents ∧
      check_agent_access true [("u9", "data-scientist")] ("u1")
          ("creative-writer") =
        ⟨Except.ok true, 0⟩ :=
  ⟨by decide,
   C9_free_agent_always_entitled [("u9", "data-scientist")] ("u1")
     ("creative-writer") (by decide)⟩

/-- Claim C10: with the database unconfigured, check_agent_access raises for
every user and every agent, free agents included, because the connection is
acquired before the free-agent shortcut. -/
theorem C10_unconfigured_raises_even_for_free (ents : List (String × String))
    (uid aid : String) :
    check_agent_access false ents uid aid =
      ⟨Except.error ("Database not configured"), 0⟩ := by
  simp [check_agent_access]
